import Mathlib

/-!
Shallow embedding of the geoxarray accessor layer (`geoxarray/accessor.py`).

The embedding models:
  * attribute / encoding mappings as association lists with Python-dict
    get / set / pop semantics,
  * the per-object resolver state of the `.geo` accessor
    (`_crs`, `_x_dim`, `_y_dim`, `_vertical_dim`, `_time_dim`, `_dim_map`),
  * dimension-role resolution (`set_dims`, `dim_map`, `dims`, `sizes`),
  * CRS resolution (`crs`, `_get_crs_from_grid_mapping`, `_get_gm_var`,
    `_get_crs_from_cf`, `_get_crs_from_pyresample`),
  * the grid-mapping locator (`grid_mapping`, `_all_grid_mapping_names`),
  * the writers (`write_crs`, `_assign_grid_mapping`, `write_dims`) and the
    copy controller (`_get_obj`).

The external CRS library (pyproj) is treated as an opaque trusted
collaborator: a CRS is an abstract identifier; WKT serialization and CF
parameter sets are modelled as tagged values for which parse-of-serialize is
the identity, and unparseable inputs are explicit `invalid` values.
Fallible Python code (exceptions) is modelled with `Except String`;
non-fatal warnings are counted explicitly.
-/

namespace Geoxarray

/-- Opaque model of a `pyproj.CRS` value (structural equality is equality of
the identifier). -/
structure CRS where
  id : Nat
deriving DecidableEq, Repr

/-- Model of a WKT string: either the serialization of some CRS or an
unparseable string. -/
inductive Wkt where
  | valid (c : CRS)
  | invalid (tag : Nat)
deriving DecidableEq, Repr

/-- Model of a value stored in an xarray attribute or encoding mapping. -/
inductive AttrVal where
  /-- A plain string value (e.g. a grid-mapping variable name). -/
  | str (s : String)
  /-- A WKT string (value of `spatial_ref` / `crs_wkt` attributes). -/
  | wkt (w : Wkt)
  /-- An opaque CF grid-mapping parameter payload: `some c` if the CF
  parameters describe the CRS `c`, `none` if they are malformed. -/
  | cf (c : Option CRS)
  /-- A pyresample geometry object stored under the `area` attribute;
  `some c` when the object has a `.crs` attribute equal to `c`. -/
  | area (c : Option CRS)
  /-- Any other value. -/
  | num (n : Int)
deriving DecidableEq, Repr

/-- Association-list mapping modelling a Python dict from attribute names to
values (keys kept unique by construction of the operations). -/
abbrev AttrList := List (String × AttrVal)

/-- Dict lookup (`d.get(k)` / `d[k]`): first entry with the given key. -/
def alGet {α : Type} : List (String × α) → String → Option α
  | [], _ => none
  | (k2, v) :: rest, k => if k2 = k then some v else alGet rest k

/-- Dict store (`d[k] = v`): replace the value at the key, else append. -/
def alSet {α : Type} : List (String × α) → String → α → List (String × α)
  | [], k, v => [(k, v)]
  | (k2, v2) :: rest, k, v =>
    if k2 = k then (k2, v) :: rest else (k2, v2) :: alSet rest k v

/-- Dict removal (`d.pop(k, None)`): drop every entry with the given key. -/
def alPop {α : Type} : List (String × α) → String → List (String × α)
  | [], _ => []
  | (k2, v2) :: rest, k =>
    if k2 = k then alPop rest k else (k2, v2) :: alPop rest k

@[simp] theorem alGet_alSet_same {α : Type} (l : List (String × α)) (k : String) (v : α) :
    alGet (alSet l k v) k = some v := by
  induction l with
  | nil => simp [alGet, alSet]
  | cons p rest ih =>
    obtain ⟨k2, v2⟩ := p
    by_cases h : k2 = k <;> simp [alGet, alSet, h, ih]

theorem alGet_alSet_other {α : Type} (l : List (String × α)) (k k2 : String) (v : α)
    (h : k2 ≠ k) : alGet (alSet l k v) k2 = alGet l k2 := by
  have hne : k ≠ k2 := Ne.symm h
  induction l with
  | nil => simp [alGet, alSet, hne]
  | cons p rest ih =>
    obtain ⟨k3, v3⟩ := p
    by_cases h3 : k3 = k
    · subst h3
      simp [alGet, alSet, hne]
    · simp [alGet, alSet, h3, ih]

@[simp] theorem alGet_alPop_same {α : Type} (l : List (String × α)) (k : String) :
    alGet (alPop l k) k = none := by
  induction l with
  | nil => simp [alGet, alPop]
  | cons p rest ih =>
    obtain ⟨k2, v2⟩ := p
    by_cases h : k2 = k <;> simp [alGet, alPop, h, ih]

theorem alGet_alPop_other {α : Type} (l : List (String × α)) (k k2 : String)
    (h : k2 ≠ k) : alGet (alPop l k) k2 = alGet l k2 := by
  have hne : k ≠ k2 := Ne.symm h
  induction l with
  | nil => simp [alGet, alPop]
  | cons p rest ih =>
    obtain ⟨k3, v3⟩ := p
    by_cases h3 : k3 = k
    · subst h3
      simp [alGet, alPop, hne, ih]
    · simp [alGet, alPop, h3, ih]

/-- Worker for `dedupFirst`: structural recursion with a seen-set. -/
def dedupFirstGo (seen : List String) : List String → List String
  | [] => []
  | a :: rest =>
    if seen.contains a then dedupFirstGo seen rest
    else a :: dedupFirstGo (a :: seen) rest

/-- Deduplication keeping first occurrences (Python `set` of an iteration,
observed only through its cardinality and sole member). -/
def dedupFirst (l : List String) : List String := dedupFirstGo [] l

/-- The default grid-mapping variable name constant
(`DEFAULT_GRID_MAPPING_VARIABLE_NAME = "spatial_ref"`). -/
def DEFAULT_GRID_MAPPING_VARIABLE_NAME : String := "spatial_ref"

/-- A coordinate variable: its dimension names (empty for a zero-dimensional
variable such as a grid-mapping variable) and its attribute mapping.  The
numeric payload is irrelevant to the accessor logic and is not modelled. -/
structure CoordVar where
  dims : List String
  attrs : AttrList
deriving DecidableEq, Repr

/-- An `xarray.DataArray`: named dimensions with sizes, attributes, attached
coordinate variables, and the encoding side-table. -/
structure DataArray where
  dims : List (String × Nat)
  attrs : AttrList
  coords : List (String × CoordVar)
  encoding : AttrList
deriving DecidableEq, Repr

/-- The physical dimension names of a DataArray in order. -/
def DataArray.dimNames (da : DataArray) : List String := da.dims.map Prod.fst

/-- An `xarray.Dataset`: named member DataArrays, shared coordinate
variables, attributes, and the encoding side-table. -/
structure Dataset where
  data_vars : List (String × DataArray)
  coords : List (String × CoordVar)
  attrs : AttrList
  encoding : AttrList
deriving DecidableEq, Repr

/-- The physical dimension names of a Dataset (union of member dimensions,
first occurrences kept). -/
def Dataset.dimNames (d : Dataset) : List String :=
  dedupFirst (d.data_vars.flatMap (fun p => p.2.dimNames))

/-- The tri-state CRS cache of the accessor: Python `self._crs` is `None`
(not yet attempted), `False` (attempted, none found) or a CRS. -/
inductive CrsState where
  | unresolved
  | absent
  | present (c : CRS)
deriving DecidableEq, Repr

/-- The tri-state `self._dim_map` cache: `False` (dimensions never
determined), `None` (fields changed, map must be regenerated), or a computed
map from physical dimension name to canonical role name. -/
inductive DimMapState where
  | unset
  | stale
  | computed (m : List (String × String))
deriving DecidableEq, Repr

/-- Private resolver state of a `.geo` accessor instance
(`_crs`, `_x_dim`, `_y_dim`, `_vertical_dim`, `_time_dim`, `_dim_map`). -/
structure GeoState where
  crs : CrsState
  x_dim : Option String
  y_dim : Option String
  vertical_dim : Option String
  time_dim : Option String
  dim_map : DimMapState
deriving DecidableEq, Repr

/-- The state of a freshly constructed accessor (`__init__`). -/
def freshState : GeoState :=
  { crs := .unresolved, x_dim := none, y_dim := none,
    vertical_dim := none, time_dim := none, dim_map := .unset }

/-- State carried onto a deep copy by `_get_obj(inplace=False)`: the CRS
cache and four dimension-role fields are copied; the copy's accessor is a
fresh instance, so its `_dim_map` starts unset. -/
def copyState (st : GeoState) : GeoState :=
  { crs := st.crs, x_dim := st.x_dim, y_dim := st.y_dim,
    vertical_dim := st.vertical_dim, time_dim := st.time_dim,
    dim_map := .unset }

/-! ### Dimension-role resolution (`GeoDataArrayAccessor.set_dims` and helpers)

Each `_set_*` helper reads the guard fields from `self` (the accessor the
method was called on) and writes to `obj.geo` (the possibly-copied target);
for `inplace=True` these coincide.  Only `_set_2d_dims` reads fields that an
earlier step may have written, so it is the only step where the
inplace/copy distinction is observable. -/

/-- `_set_x_dim`: explicit name is asserted to be a real dimension and bound
unconditionally; otherwise name-match `"x"` when the role is unbound. -/
def stepX (dims : List String) (selfX : Option String) (obj : GeoState)
    (x : Option String) : Except String GeoState :=
  match x with
  | none =>
    .ok (if selfX = none ∧ dims.contains "x" then { obj with x_dim := some "x" } else obj)
  | some xv =>
    if dims.contains xv then .ok { obj with x_dim := some xv }
    else .error "AssertionError: x dimension name not in object dimensions"

/-- `_set_y_dim`: same shape as `_set_x_dim` for the Y role. -/
def stepY (dims : List String) (selfY : Option String) (obj : GeoState)
    (y : Option String) : Except String GeoState :=
  match y with
  | none =>
    .ok (if selfY = none ∧ dims.contains "y" then { obj with y_dim := some "y" } else obj)
  | some yv =>
    if dims.contains yv then .ok { obj with y_dim := some yv }
    else .error "AssertionError: y dimension name not in object dimensions"

/-- `_set_2d_dims`: for exactly two physical dimensions with both X and Y
unbound on `self`, bind Y to the first and X to the second. -/
def step2d (dims : List String) (selfX selfY : Option String)
    (obj : GeoState) : GeoState :=
  match dims, selfX, selfY with
  | [d0, d1], none, none => { obj with y_dim := some d0, x_dim := some d1 }
  | _, _, _ => obj

/-- First matching vertical-candidate dimension name (`z`, `vertical`,
`pressure_level`, in that order). -/
def findZ (dims : List String) : Option String :=
  ["z", "vertical", "pressure_level"].find? (fun zd => dims.contains zd)

/-- First matching time-candidate dimension name (`time`, `t`). -/
def findT (dims : List String) : Option String :=
  ["time", "t"].find? (fun td => dims.contains td)

/-- `_set_vertical_dims`: explicit name asserted and bound, else first match
among `z`, `vertical`, `pressure_level`. -/
def stepVertical (dims : List String) (selfV : Option String) (obj : GeoState)
    (vertical : Option String) : Except String GeoState :=
  match vertical with
  | none =>
    .ok (if selfV = none then
           match findZ dims with
           | some zd => { obj with vertical_dim := some zd }
           | none => obj
         else obj)
  | some vv =>
    if dims.contains vv then .ok { obj with vertical_dim := some vv }
    else .error "AssertionError: vertical dimension name not in object dimensions"

/-- `_set_temporal_dims`: explicit name asserted and bound, else first match
among `time`, `t`. -/
def stepTime (dims : List String) (selfT : Option String) (obj : GeoState)
    (time : Option String) : Except String GeoState :=
  match time with
  | none =>
    .ok (if selfT = none then
           match findT dims with
           | some td => { obj with time_dim := some td }
           | none => obj
         else obj)
  | some tv =>
    if dims.contains tv then .ok { obj with time_dim := some tv }
    else .error "AssertionError: time dimension name not in object dimensions"

/-- `GeoDataArrayAccessor.set_dims` acting on resolver state: threads the
target state through the five steps and marks the dim map stale.  `st0` is
the calling accessor state (`self`); for `inplace = true` the target is the
same accessor, for `inplace = false` the target is the fresh copy produced
by `_get_obj` carrying the copied fields. -/
def setDimsDA (dims : List String) (st0 : GeoState)
    (x y vertical time : Option String) (inplace : Bool) :
    Except String GeoState := do
  let obj0 := if inplace then st0 else copyState st0
  let obj1 ← stepX dims st0.x_dim obj0 x
  let obj2 ← stepY dims st0.y_dim obj1 y
  let selfX := if inplace then obj2.x_dim else st0.x_dim
  let selfY := if inplace then obj2.y_dim else st0.y_dim
  let obj3 := step2d dims selfX selfY obj2
  let obj4 ← stepVertical dims st0.vertical_dim obj3 vertical
  let obj5 ← stepTime dims st0.time_dim obj4 time
  .ok { obj5 with dim_map := .stale }

/-- Inference with no explicit names (`set_dims(inplace=True)` as triggered
by the `dim_map` property); it cannot fail, so the error branch is inert. -/
def inferOk (dims : List String) (st : GeoState) : GeoState :=
  match setDimsDA dims st none none none none true with
  | .ok st2 => st2
  | .error _ => st

/-- Build the physical-name-to-role map from the bound fields
(the `self._dim_map is None` branch of the `dim_map` property). -/
def buildDimMap (st : GeoState) : List (String × String) :=
  let m0 : List (String × String) := []
  let m1 := match st.x_dim with | some d => alSet m0 d "x" | none => m0
  let m2 := match st.y_dim with | some d => alSet m1 d "y" | none => m1
  let m3 := match st.vertical_dim with | some d => alSet m2 d "vertical" | none => m2
  match st.time_dim with | some d => alSet m3 d "time" | none => m3

/-- The `dim_map` property: run inference once if dimensions were never
determined, regenerate the map if stale, and cache the computed map. -/
def dimMapGet (dims : List String) (st : GeoState) :
    List (String × String) × GeoState :=
  let st1 := if st.dim_map = DimMapState.unset then inferOk dims st else st
  match st1.dim_map with
  | .computed m => (m, st1)
  | _ =>
    let m := buildDimMap st1
    (m, { st1 with dim_map := .computed m })

/-- The `dims` property: physical dimension names with bound roles replaced
by their canonical role names. -/
def geoDims (dims : List String) (st : GeoState) : List String × GeoState :=
  let (m, st1) := dimMapGet dims st
  (dims.map (fun d => (alGet m d).getD d), st1)

/-- The `sizes` property: size map keyed by preferred dimension names. -/
def geoSizes (da : DataArray) (st : GeoState) :
    List (String × Nat) × GeoState :=
  let (m, st1) := dimMapGet da.dimNames st
  (da.dims.foldl (fun acc p => alSet acc ((alGet m p.1).getD p.1) p.2) [], st1)

/-! ### Grid-mapping locator and CRS resolution

Both object kinds expose the same attribute surface to the shared accessor
code; a `GeoView` packages the fields the shared methods read, with
`memberPointers = none` for a DataArray (no `data_vars` attribute) and
`some` the extracted member grid-mapping pointers for a Dataset. -/

/-- The object surface read by the shared accessor methods. -/
structure GeoView where
  attrs : AttrList
  encoding : AttrList
  coords : List (String × CoordVar)
  memberPointers : Option (List String)
deriving DecidableEq, Repr

/-- Python `a or b` on an optional string (falsy empty string falls
through). -/
def pyOr (a b : Option String) : Option String :=
  match a with
  | some s => if s = "" then b else some s
  | none => b

/-- String-valued attribute lookup (the values stored under `grid_mapping`
are variable names). -/
def alGetStr (l : AttrList) (k : String) : Option String :=
  match alGet l k with
  | some (.str s) => some s
  | _ => none

/-- `_get_encoding_or_attr`: `xr_obj.encoding.get(k, xr_obj.attrs.get(k))`. -/
def encodingOrAttr (da : DataArray) (k : String) : Option AttrVal :=
  match alGet da.encoding k with
  | some v => some v
  | none => alGet da.attrs k

/-- `_all_grid_mapping_names`: the member variables' own grid-mapping
pointers, in member order, skipping members without one. -/
def allGridMappingNames (d : Dataset) : List String :=
  d.data_vars.filterMap (fun p =>
    match encodingOrAttr p.2 "grid_mapping" with
    | some (.str s) => some s
    | _ => none)

/-- View of a DataArray as seen by the shared accessor code. -/
def daView (da : DataArray) : GeoView :=
  { attrs := da.attrs, encoding := da.encoding, coords := da.coords,
    memberPointers := none }

/-- View of a Dataset as seen by the shared accessor code. -/
def dsView (d : Dataset) : GeoView :=
  { attrs := d.attrs, encoding := d.encoding, coords := d.coords,
    memberPointers := some (allGridMappingNames d) }

/-- The `grid_mapping` property: the encoding pointer or else the attribute
pointer; for a collection with neither, the distinct member pointers are
collected — more than one is a hard error, exactly one is returned; with no
pointer anywhere the result is `None`. -/
def gridMappingV (v : GeoView) : Except String (Option String) :=
  match pyOr (alGetStr v.encoding "grid_mapping") (alGetStr v.attrs "grid_mapping") with
  | some n => .ok (some n)
  | none =>
    match v.memberPointers with
    | none => .ok none
    | some ptrs =>
      let distinctNames := dedupFirst ptrs
      if distinctNames.length > 1 then
        .error "Multiple grid mapping variables exist."
      else
        .ok distinctNames.head?

/-- `_get_gm_var`: locate the grid-mapping coordinate variable; a pointer
naming a variable absent from the coordinate table produces a non-fatal
warning (counted) and resolution moves on. -/
def getGmVarV (v : GeoView) : Except String (Option CoordVar × Nat) := do
  let gm ← gridMappingV v
  match gm with
  | none => .ok (none, 0)
  | some n =>
    match alGet v.coords n with
    | none => .ok (none, 1)
    | some cv => .ok (some cv, 0)

/-- `pyproj.CRS.from_wkt` applied to a raw attribute value: parse-of-
serialize is the identity, anything else raises `CRSError`. -/
def fromWktVal : AttrVal → Except String CRS
  | .wkt (.valid c) => .ok c
  | _ => .error "CRSError: cannot parse WKT"

/-- `pyproj.CRS.from_cf` with `KeyError`/`CRSError` already caught by the
caller: the CF parameter payload either describes a CRS or does not. -/
def cfParse (attrs : AttrList) : Option CRS :=
  match alGet attrs "cf_params" with
  | some (.cf (some c)) => some c
  | _ => none

/-- `pyproj.CRS.to_cf`: the opaque CF parameter payload for a CRS. -/
def toCf (c : CRS) : AttrList := [("cf_params", .cf (some c))]

/-- `pyproj.CRS.to_wkt`. -/
def toWkt (c : CRS) : Wkt := .valid c

/-- `_get_crs_from_cf`: parse the full attribute set of the coordinate
variable named by `grid_mapping` (or the default name) as CF parameters;
missing variable or malformed parameters fail softly. -/
def getCrsFromCfV (v : GeoView) : Except String (Option CRS) := do
  let gm ← gridMappingV v
  let name :=
    match gm with
    | some s => if s = "" then DEFAULT_GRID_MAPPING_VARIABLE_NAME else s
    | none => DEFAULT_GRID_MAPPING_VARIABLE_NAME
  match alGet v.coords name with
  | none => .ok none
  | some cv => .ok (cfParse cv.attrs)

/-- `_get_crs_from_grid_mapping`: read `spatial_ref` then `crs_wkt` off the
located coordinate variable (a present but unparseable value raises); when
both raw WKT attributes are absent, fall back to CF parameter parsing. -/
def getCrsFromGridMappingV (v : GeoView) : Except String (Option CRS × Nat) := do
  let (gmv, w) ← getGmVarV v
  match gmv with
  | none => .ok (none, w)
  | some cv =>
    match alGet cv.attrs "spatial_ref" with
    | some val => do
      let c ← fromWktVal val
      .ok (some c, w)
    | none =>
      match alGet cv.attrs "crs_wkt" with
      | some val => do
        let c ← fromWktVal val
        .ok (some c, w)
      | none => do
        let r ← getCrsFromCfV v
        .ok (r, w)

/-- `_get_crs_from_pyresample`: the `area` attribute's `.crs`, when the
attribute holds a geometry object exposing one. -/
def getCrsFromPyresampleV (v : GeoView) : Option CRS :=
  match alGet v.attrs "area" with
  | some (.area (some c)) => some c
  | _ => none

/-- One full pass of the CRS resolution chain (grid mapping, then
pyresample), with the number of warnings emitted. -/
def crsResolveV (v : GeoView) : Except String (Option CRS × Nat) := do
  let (r1, w) ← getCrsFromGridMappingV v
  match r1 with
  | some c => .ok (some c, w)
  | none => .ok (getCrsFromPyresampleV v, w)

/-- The `crs` property: sticky tri-state cache around `crsResolveV`.
Returns the observed value, the updated accessor state, and the number of
warnings emitted by this access. -/
def crsGetV (v : GeoView) (st : GeoState) :
    Except String (Option CRS × GeoState × Nat) :=
  match st.crs with
  | .absent => .ok (none, st, 0)
  | .present c => .ok (some c, st, 0)
  | .unresolved => do
    let (r, w) ← crsResolveV v
    match r with
    | some c => .ok (some c, { st with crs := .present c }, w)
    | none => .ok (none, { st with crs := .absent }, w)

/-! ### Writers and the copy controller -/

/-- A DataArray together with its accessor's resolver state. -/
structure GeoDA where
  da : DataArray
  st : GeoState
deriving DecidableEq, Repr

/-- A Dataset together with its accessor's resolver state. -/
structure GeoDS where
  ds : Dataset
  st : GeoState
deriving DecidableEq, Repr

/-- Input accepted by `CRS.from_user_input`: either something that parses to
a CRS or something the parser rejects. -/
inductive CrsInput where
  | mk (c : CRS)
  | bad
deriving DecidableEq, Repr

/-- `pyproj.CRS.from_user_input`. -/
def fromUserInput : CrsInput → Except String CRS
  | .mk c => .ok c
  | .bad => .error "CRSError: cannot parse user input"

/-- Grid-mapping variable-name selection in `write_crs`: the explicit
argument, else the currently known `grid_mapping`, else the default. -/
def resolveGmVarName (explicitName : Option String)
    (current : Option String) : String :=
  match explicitName with
  | some n => n
  | none =>
    match current with
    | some n => n
    | none => DEFAULT_GRID_MAPPING_VARIABLE_NAME

/-- The attribute set written onto the grid-mapping coordinate variable:
CF parameters plus `crs_wkt` and `spatial_ref`, both the WKT text. -/
def gmWriteAttrs (c : CRS) : AttrList :=
  alSet (alSet (toCf c) "crs_wkt" (.wkt (toWkt c))) "spatial_ref" (.wkt (toWkt c))

/-- `_assign_grid_mapping` on a DataArray: drop the attribute pointer,
install the encoding pointer. -/
def assignGridMappingDA (da : DataArray) (n : String) : DataArray :=
  { da with attrs := alPop da.attrs "grid_mapping",
            encoding := alSet da.encoding "grid_mapping" (.str n) }

/-- The member-variable filter inside `_assign_grid_mapping`: a freshly
resolved member is updated unless its resolved dims are empty or contain
none of the literal names `x`, `y`, `z`. -/
def daShouldAssign (da : DataArray) : Bool :=
  let ds := (geoDims da.dimNames freshState).1
  ¬(ds.isEmpty ∨ (¬ds.contains "x" ∧ ¬ds.contains "y" ∧ ¬ds.contains "z"))

/-- `_assign_grid_mapping` on a Dataset: update the collection, then every
member variable passing `daShouldAssign`. -/
def assignGridMappingDS (d : Dataset) (n : String) : Dataset :=
  { d with attrs := alPop d.attrs "grid_mapping",
           encoding := alSet d.encoding "grid_mapping" (.str n),
           data_vars := d.data_vars.map (fun p =>
             if daShouldAssign p.2 then (p.1, assignGridMappingDA p.2 n) else p) }

/-- `_optional_crs_from_input` acting on the pair (self state, target
state): with no input, `self.crs` resolves (and caches on self) and a
missing CRS is fatal; with input, the parsed CRS is stored on the target
accessor.  For `inplace = true` self and target are the same accessor. -/
def optionalCrsFromInput (v : GeoView) (selfSt objSt : GeoState)
    (info : Option CrsInput) (inplace : Bool) :
    Except String (CRS × GeoState × GeoState) :=
  match info with
  | none =>
    match crsGetV v selfSt with
    | .error e => .error e
    | .ok (none, _, _) => .error "No CRS information provided or found."
    | .ok (some c, st1, _) => .ok (c, st1, if inplace then st1 else objSt)
  | some i =>
    match fromUserInput i with
    | .error e => .error e
    | .ok c =>
      let objSt1 := { objSt with crs := CrsState.present c }
      .ok (c, if inplace then objSt1 else selfSt, objSt1)

/-- `write_crs` on a DataArray.  Returns (source after the call, returned
object); with `inplace = true` the two coincide. -/
def writeCrsDA (g : GeoDA) (info : Option CrsInput)
    (gmName : Option String) (inplace : Bool) :
    Except String (GeoDA × GeoDA) := do
  let objSt0 := if inplace then g.st else copyState g.st
  let (c, selfSt1, objSt1) ←
    optionalCrsFromInput (daView g.da) g.st objSt0 info inplace
  let current ← gridMappingV (daView g.da)
  let name := resolveGmVarName gmName current
  let newCv : CoordVar := { dims := [], attrs := gmWriteAttrs c }
  let da1 := assignGridMappingDA
    { g.da with coords := alSet g.da.coords name newCv } name
  let res : GeoDA := { da := da1, st := objSt1 }
  .ok (if inplace then res else { da := g.da, st := selfSt1 }, res)

/-- `write_crs` on a Dataset: as on a DataArray, but the grid-mapping
assignment also fans out to the spatial member variables. -/
def writeCrsDS (g : GeoDS) (info : Option CrsInput)
    (gmName : Option String) (inplace : Bool) :
    Except String (GeoDS × GeoDS) := do
  let objSt0 := if inplace then g.st else copyState g.st
  let (c, selfSt1, objSt1) ←
    optionalCrsFromInput (dsView g.ds) g.st objSt0 info inplace
  let current ← gridMappingV (dsView g.ds)
  let name := resolveGmVarName gmName current
  let newCv : CoordVar := { dims := [], attrs := gmWriteAttrs c }
  let ds1 := assignGridMappingDS
    { g.ds with coords := alSet g.ds.coords name newCv } name
  let res : GeoDS := { ds := ds1, st := objSt1 }
  .ok (if inplace then res else { ds := g.ds, st := selfSt1 }, res)

/-- `xarray.DataArray.rename` restricted to what `write_dims` uses: rename
dimensions (and coordinate variables sharing those names) by the map. -/
def renameDA (da : DataArray) (m : List (String × String)) : DataArray :=
  let r := fun d => (alGet m d).getD d
  { dims := da.dims.map (fun p => (r p.1, p.2)),
    attrs := da.attrs,
    coords := da.coords.map (fun p => (r p.1, { p.2 with dims := p.2.dims.map r })),
    encoding := da.encoding }

/-- `write_dims` on a DataArray: deep copy, then rename by `self.dim_map`
(resolving on the source).  `rename` produces a brand-new object whose
accessor starts fresh, so the copied resolver state is not carried onto the
returned object.  Returns (source after the call, returned object). -/
def writeDimsDA (g : GeoDA) : GeoDA × GeoDA :=
  let (m, selfSt1) := dimMapGet g.da.dimNames g.st
  ({ da := g.da, st := selfSt1 }, { da := renameDA g.da m, st := freshState })

/-! ### Dataset-level `set_dims` -/

/-- Keep a candidate explicit name only if it is one of the member's
physical dimensions (the per-variable filter in
`GeoDatasetAccessor.set_dims`). -/
def filterArg (a : Option String) (memberDims : List String) : Option String :=
  match a with
  | some n => if memberDims.contains n then some n else none
  | none => none

/-- `_update_gx_dim_dict`: fold a member's role map into the collection
map, accepting only the four canonical roles. -/
def updateGxDimDict (old new : List (String × String)) :
    List (String × String) :=
  new.foldl (fun acc p =>
    if p.2 = "x" ∨ p.2 = "y" ∨ p.2 = "time" ∨ p.2 = "vertical"
    then alSet acc p.1 p.2 else acc) old

/-- `setattr(obj_copy.geo, f"_{gx}_dim", dim_name)` for a canonical role. -/
def setRoleField (st : GeoState) (role dimName : String) : GeoState :=
  if role = "x" then { st with x_dim := some dimName }
  else if role = "y" then { st with y_dim := some dimName }
  else if role = "vertical" then { st with vertical_dim := some dimName }
  else if role = "time" then { st with time_dim := some dimName }
  else st

/-- Per-member step of `GeoDatasetAccessor.set_dims`: filter the explicit
names to those among the member's dimensions, skip the member if none
remain, else run the member's `set_dims` on a fresh ephemeral accessor and
fold its role map into the collection map. -/
def setDimsDSBody (x y vertical time : Option String)
    (dm : List (String × String)) (p : String × DataArray) :
    Except String (List (String × String)) := do
  let xa := filterArg x p.2.dimNames
  let ya := filterArg y p.2.dimNames
  let va := filterArg vertical p.2.dimNames
  let ta := filterArg time p.2.dimNames
  if xa = none ∧ ya = none ∧ va = none ∧ ta = none then
    pure dm
  else do
    let st1 ← setDimsDA p.2.dimNames freshState xa ya va ta true
    let (vdm, _) := dimMapGet p.2.dimNames st1
    pure (updateGxDimDict dm vdm)

/-- `GeoDatasetAccessor.set_dims`: forward each explicit name to the member
variables whose dimensions contain it (others are silently dropped), fold
the member role maps into the collection map, and store the roles. -/
def setDimsDS (g : GeoDS) (x y vertical time : Option String)
    (inplace : Bool) : Except String GeoDS := do
  let objSt0 := if inplace then g.st else copyState g.st
  let objSt1 := { objSt0 with dim_map := DimMapState.stale }
  let (dm0, objSt2) := dimMapGet g.ds.dimNames objSt1
  let dmFinal ← g.ds.data_vars.foldlM (setDimsDSBody x y vertical time) dm0
  let stOut := dmFinal.foldl (fun s p => setRoleField s p.2 p.1) objSt2
  .ok { ds := g.ds, st := { stOut with dim_map := DimMapState.stale } }

/-! ### Characterizations of the resolver -/

/-- Closed form of no-argument inference (`set_dims` with no explicit
names, inplace): name matching for X and Y, the two-dimensional fallback,
and candidate-list matching for the vertical and time roles.  Written to
mirror the stepwise computation so that `inferOk_eq` is definitional. -/
def inferred (dims : List String) (st : GeoState) : GeoState :=
  let s1 := if st.x_dim = none ∧ dims.contains "x" then { st with x_dim := some "x" } else st
  let s2 := if st.y_dim = none ∧ dims.contains "y" then { s1 with y_dim := some "y" } else s1
  let s3 := step2d dims s2.x_dim s2.y_dim s2
  let s4 :=
    if st.vertical_dim = none then
      match findZ dims with
      | some zd => { s3 with vertical_dim := some zd }
      | none => s3
    else s3
  let s5 :=
    if st.time_dim = none then
      match findT dims with
      | some td => { s4 with time_dim := some td }
      | none => s4
    else s4
  { s5 with dim_map := .stale }

theorem inferOk_eq (dims : List String) (st : GeoState) :
    inferOk dims st = inferred dims st := rfl

/-- X and Y bindings after name matching and (possibly) the
two-dimensional fallback, as a function of the prior bindings. -/
def xyAfter (dims : List String) (x0 y0 : Option String) :
    Option String × Option String :=
  let x1 := if x0 = none ∧ dims.contains "x" then some "x" else x0
  let y1 := if y0 = none ∧ dims.contains "y" then some "y" else y0
  match dims, x1, y1 with
  | [d0, d1], none, none => (some d1, some d0)
  | _, a, b => (a, b)

/-- Vertical binding after inference. -/
def vAfter (dims : List String) (v0 : Option String) : Option String :=
  match v0 with
  | some v => some v
  | none => findZ dims

/-- Time binding after inference. -/
def tAfter (dims : List String) (t0 : Option String) : Option String :=
  match t0 with
  | some t => some t
  | none => findT dims

theorem inferred_crs (dims : List String) (st : GeoState) :
    (inferred dims st).crs = st.crs := by
  simp only [inferred, step2d]
  repeat' split
  all_goals rfl

theorem inferred_dim_map (dims : List String) (st : GeoState) :
    (inferred dims st).dim_map = DimMapState.stale := by
  simp only [inferred, step2d]
  repeat' split
  all_goals rfl

theorem inferred_vertical (dims : List String) (st : GeoState) :
    (inferred dims st).vertical_dim = vAfter dims st.vertical_dim := by
  obtain ⟨c0, x0, y0, v0, t0, dm0⟩ := st
  simp only [inferred, step2d, vAfter]
  split_ifs <;> repeat' split
  all_goals simp_all

theorem inferred_time (dims : List String) (st : GeoState) :
    (inferred dims st).time_dim = tAfter dims st.time_dim := by
  obtain ⟨c0, x0, y0, v0, t0, dm0⟩ := st
  simp only [inferred, step2d, tAfter]
  split_ifs <;> repeat' split
  all_goals simp_all

theorem inferred_x (dims : List String) (st : GeoState) :
    (inferred dims st).x_dim = (xyAfter dims st.x_dim st.y_dim).1 := by
  obtain ⟨c0, x0, y0, v0, t0, dm0⟩ := st
  simp only [inferred, step2d, xyAfter]
  split_ifs <;> repeat' split
  all_goals simp_all

theorem inferred_y (dims : List String) (st : GeoState) :
    (inferred dims st).y_dim = (xyAfter dims st.x_dim st.y_dim).2 := by
  obtain ⟨c0, x0, y0, v0, t0, dm0⟩ := st
  simp only [inferred, step2d, xyAfter]
  split_ifs <;> repeat' split
  all_goals simp_all

theorem geoStateExt {a b : GeoState} (h1 : a.crs = b.crs) (h2 : a.x_dim = b.x_dim)
    (h3 : a.y_dim = b.y_dim) (h4 : a.vertical_dim = b.vertical_dim)
    (h5 : a.time_dim = b.time_dim) (h6 : a.dim_map = b.dim_map) : a = b := by
  cases a
  cases b
  simp_all

theorem xyAfter_idem (dims : List String) (x0 y0 : Option String) :
    xyAfter dims (xyAfter dims x0 y0).1 (xyAfter dims x0 y0).2 = xyAfter dims x0 y0 := by
  simp only [xyAfter]
  rcases x0 with _ | xv <;> rcases y0 with _ | yv <;>
    split_ifs <;> repeat' split
  all_goals simp_all

theorem vAfter_idem (dims : List String) (v0 : Option String) :
    vAfter dims (vAfter dims v0) = vAfter dims v0 := by
  rcases v0 with _ | vv <;> simp only [vAfter] <;>
    rcases hz : findZ dims with _ | z <;> simp_all [vAfter]

theorem tAfter_idem (dims : List String) (t0 : Option String) :
    tAfter dims (tAfter dims t0) = tAfter dims t0 := by
  rcases t0 with _ | tv <;> simp only [tAfter] <;>
    rcases ht : findT dims with _ | t2 <;> simp_all [tAfter]

theorem inferred_idem (dims : List String) (st : GeoState) :
    inferred dims (inferred dims st) = inferred dims st := by
  apply geoStateExt
  · rw [inferred_crs]
  · rw [inferred_x, inferred_x, inferred_y, xyAfter_idem]
  · rw [inferred_y, inferred_x, inferred_y, xyAfter_idem]
  · rw [inferred_vertical, inferred_vertical, vAfter_idem]
  · rw [inferred_time, inferred_time, tAfter_idem]
  · rw [inferred_dim_map, inferred_dim_map]

/-- After a `dim_map` access the cache holds exactly the returned map. -/
theorem dimMapGet_state (dims : List String) (st : GeoState) :
    (dimMapGet dims st).2.dim_map = DimMapState.computed (dimMapGet dims st).1 := by
  simp only [dimMapGet]
  split_ifs with h
  · rw [inferOk_eq]
    have hdm := inferred_dim_map dims st
    rcases hm : (inferred dims st).dim_map with _ | _ | m <;> simp_all
  · rcases hm : st.dim_map with _ | _ | m <;> simp_all

/-- A second `dim_map` access returns the cached map and leaves the state
unchanged. -/
theorem dimMapGet_idem (dims : List String) (st : GeoState) :
    dimMapGet dims (dimMapGet dims st).2 = dimMapGet dims st := by
  have h := dimMapGet_state dims st
  rcases hp : dimMapGet dims st with ⟨m, st1⟩
  rw [hp] at h
  simp only at h
  simp [dimMapGet, h]

/-- The `crs` property is sticky: once an access has produced a value and
an updated cache, a further access returns the same value with no further
resolution work and no further warnings. -/
theorem crsGetV_sticky (v : GeoView) (st st1 : GeoState) (r : Option CRS) (w : Nat)
    (h : crsGetV v st = .ok (r, st1, w)) :
    crsGetV v st1 = .ok (r, st1, 0) := by
  rcases hc : st.crs with _ | _ | c
  · simp only [crsGetV, hc] at h
    rcases hres : crsResolveV v with e | ⟨r2, w2⟩
    · rw [hres] at h
      simp [bind, Except.bind] at h
    · rw [hres] at h
      rcases r2 with _ | c2
      · simp only [bind, Except.bind, Except.ok.injEq, Prod.mk.injEq] at h
        obtain ⟨h1, h2, h3⟩ := h
        subst h1
        subst h3
        simp [crsGetV, ← h2]
      · simp only [bind, Except.bind, Except.ok.injEq, Prod.mk.injEq] at h
        obtain ⟨h1, h2, h3⟩ := h
        subst h1
        subst h3
        simp [crsGetV, ← h2]
  · simp only [crsGetV, hc, Except.ok.injEq, Prod.mk.injEq] at h
    obtain ⟨h1, h2, h3⟩ := h
    subst h1
    subst h3
    simp [crsGetV, ← h2, hc]
  · simp only [crsGetV, hc, Except.ok.injEq, Prod.mk.injEq] at h
    obtain ⟨h1, h2, h3⟩ := h
    subst h1
    subst h3
    simp [crsGetV, ← h2, hc]

/-! ### Concrete example objects used by witnesses and counterexamples -/

/-- Extract the payload of a successful computation (default otherwise). -/
def exceptResult {α : Type} (e : Except String α) (dflt : α) : α :=
  match e with
  | .ok a => a
  | .error _ => dflt

/-- Whether a computation succeeded. -/
def exceptOk {α : Type} (e : Except String α) : Bool :=
  match e with
  | .ok _ => true
  | .error _ => false

/-- A 2-dimensional array with non-standard dimension names `("a","b")` of
shape `(10, 20)` and no metadata. -/
def abArray : DataArray :=
  { dims := [("a", 10), ("b", 20)], attrs := [], coords := [], encoding := [] }

/-- A plain `(y, x)` image variable with no metadata. -/
def imgVar : DataArray :=
  { dims := [("y", 10), ("x", 20)], attrs := [], coords := [], encoding := [] }

/-- A member variable whose only dimension is the vertical dimension `z`. -/
def profileVar : DataArray :=
  { dims := [("z", 5)], attrs := [], coords := [], encoding := [] }

/-- A dataset holding a spatial image variable and a vertical-only profile
variable. -/
def dsWithProfile : Dataset :=
  { data_vars := [("img", imgVar), ("profile", profileVar)],
    coords := [], attrs := [], encoding := [] }

/-- `write_crs` of EPSG-like CRS `42` on `dsWithProfile`, not inplace. -/
def c9Result : Except String (GeoDS × GeoDS) :=
  writeCrsDS { ds := dsWithProfile, st := freshState }
    (some (CrsInput.mk { id := 42 })) none false

/-- Fallback pair used to extract successful results. -/
def emptyGeoDS : GeoDS :=
  { ds := { data_vars := [], coords := [], attrs := [], encoding := [] },
    st := freshState }

/-- The (source, result) pair of `c9Result`. -/
def c9ResPair : GeoDS × GeoDS := exceptResult c9Result (emptyGeoDS, emptyGeoDS)

/-! ### Claim theorems -/

/-- Auxiliary: a `dim_map` access on a state whose map cache is not `unset`
does not re-run inference, so the X binding is untouched. -/
theorem dimMapGet_x_no_infer (dims : List String) (st : GeoState)
    (h : st.dim_map ≠ DimMapState.unset) :
    (dimMapGet dims st).2.x_dim = st.x_dim := by
  simp only [dimMapGet, if_neg h]
  rcases hd : st.dim_map with _ | _ | m <;> simp

/-- C4: for a two-dimensional array where neither X nor Y is bound by prior
state or name matching, inference binds Y to the first and X to the second
physical dimension; concretely dims `("a","b")` of shape `(10,20)` resolve
to `("y","x")` with sizes `y = 10`, `x = 20`; and the fallback does not fire
when either role is already bound or a name match applies. -/
theorem c4_two_dim_fallback :
    (∀ (d0 d1 : String) (st : GeoState),
        st.x_dim = none → st.y_dim = none →
        d0 ≠ "x" → d1 ≠ "x" → d0 ≠ "y" → d1 ≠ "y" →
        (inferOk [d0, d1] st).y_dim = some d0 ∧ (inferOk [d0, d1] st).x_dim = some d1)
    ∧ ((geoDims abArray.dimNames freshState).1 = ["y", "x"]
        ∧ alGet (geoSizes abArray freshState).1 "y" = some 10
        ∧ alGet (geoSizes abArray freshState).1 "x" = some 20)
    ∧ (∀ (d0 d1 : String) (st : GeoState),
        st.x_dim ≠ none ∨ st.y_dim ≠ none ∨
          [d0, d1].contains "x" = true ∨ [d0, d1].contains "y" = true →
        (inferOk [d0, d1] st).x_dim
            = (if st.x_dim = none ∧ [d0, d1].contains "x" then some "x" else st.x_dim)
          ∧ (inferOk [d0, d1] st).y_dim
            = (if st.y_dim = none ∧ [d0, d1].contains "y" then some "y" else st.y_dim)) := by
  refine ⟨?_, ?_, ?_⟩
  · intro d0 d1 st hx hy hd0x hd1x hd0y hd1y
    have hcx : [d0, d1].contains "x" = false := by
      simp [List.contains, List.elem_cons]
      exact ⟨Ne.symm hd0x, Ne.symm hd1x⟩
    have hcy : [d0, d1].contains "y" = false := by
      simp [List.contains, List.elem_cons]
      exact ⟨Ne.symm hd0y, Ne.symm hd1y⟩
    rw [inferOk_eq, inferred_x, inferred_y]
    simp [xyAfter, hx, hy, Ne.symm hd0x, Ne.symm hd1x, Ne.symm hd0y, Ne.symm hd1y]
  · exact ⟨rfl, rfl, rfl⟩
  · intro d0 d1 st hout
    rw [inferOk_eq, inferred_x, inferred_y]
    simp only [xyAfter]
    rcases hx : st.x_dim with _ | xv <;> rcases hy : st.y_dim with _ | yv <;>
      by_cases hcx : [d0, d1].contains "x" <;>
        by_cases hcy : [d0, d1].contains "y" <;>
          simp_all

/-- Witness for C4 at concrete inputs. -/
theorem c4_two_dim_fallback_witness :
    (inferOk ["a", "b"] freshState).y_dim = some "a"
      ∧ (inferOk ["a", "b"] freshState).x_dim = some "b" :=
  c4_two_dim_fallback.1 "a" "b" freshState rfl rfl
    (by decide) (by decide) (by decide) (by decide)

/-- Mirror of `set_dims(x=xv, inplace=True)` for a valid explicit X name
(written to make the equation with `setDimsDA` definitional after the
membership test is discharged). -/
def setXExplicit (dims : List String) (st : GeoState) (xv : String) : GeoState :=
  let s1 := { st with x_dim := some xv }
  let s2 := if st.y_dim = none ∧ dims.contains "y" then { s1 with y_dim := some "y" } else s1
  let s3 := step2d dims s2.x_dim s2.y_dim s2
  let s4 :=
    if st.vertical_dim = none then
      match findZ dims with
      | some zd => { s3 with vertical_dim := some zd }
      | none => s3
    else s3
  let s5 :=
    if st.time_dim = none then
      match findT dims with
      | some td => { s4 with time_dim := some td }
      | none => s4
    else s4
  { s5 with dim_map := .stale }

theorem setDimsDA_explicit_x (dims : List String) (st : GeoState) (xv : String)
    (h : dims.contains xv = true) :
    setDimsDA dims st (some xv) none none none true = .ok (setXExplicit dims st xv) := by
  simp only [setDimsDA, stepX, stepY, stepVertical, stepTime, bind, Except.bind, h,
    if_true, ite_true, setXExplicit]

theorem setXExplicit_x (dims : List String) (st : GeoState) (xv : String) :
    (setXExplicit dims st xv).x_dim = some xv := by
  simp only [setXExplicit, step2d]
  split_ifs <;> repeat' split
  all_goals simp_all

theorem setXExplicit_dim_map (dims : List String) (st : GeoState) (xv : String) :
    (setXExplicit dims st xv).dim_map = DimMapState.stale := rfl

/-- Auxiliary: an error from the grid-mapping locator propagates out of
an uncached `crs` access. -/
theorem crsGetV_err (v : GeoView) (st : GeoState) (e : String)
    (h0 : st.crs = CrsState.unresolved)
    (h1 : gridMappingV v = .error e) :
    crsGetV v st = .error e := by
  simp [crsGetV, h0, crsResolveV, getCrsFromGridMappingV, getGmVarV, h1,
    bind, Except.bind]

/-- Auxiliary: a resolution pass that finds nothing makes an uncached `crs`
access return `none` and cache the absent state. -/
theorem crsGetV_absent (v : GeoView) (st : GeoState) (w : Nat)
    (h0 : st.crs = CrsState.unresolved)
    (h1 : crsResolveV v = .ok (none, w)) :
    crsGetV v st = .ok (none, { st with crs := CrsState.absent }, w) := by
  simp [crsGetV, h0, h1, bind, Except.bind]

/-- Auxiliary: a `crs` access only ever updates the CRS cache field. -/
theorem crsGetV_preserves (v : GeoView) (st st1 : GeoState) (r : Option CRS) (w : Nat)
    (h : crsGetV v st = .ok (r, st1, w)) :
    st1.x_dim = st.x_dim ∧ st1.y_dim = st.y_dim
      ∧ st1.vertical_dim = st.vertical_dim ∧ st1.time_dim = st.time_dim
      ∧ st1.dim_map = st.dim_map := by
  rcases hc : st.crs with _ | _ | c
  · simp only [crsGetV, hc] at h
    rcases hres : crsResolveV v with e | ⟨r2, w2⟩
    · rw [hres] at h
      simp [bind, Except.bind] at h
    · rw [hres] at h
      rcases r2 with _ | c2 <;>
        · simp only [bind, Except.bind, Except.ok.injEq, Prod.mk.injEq] at h
          obtain ⟨h1, h2, h3⟩ := h
          rw [← h2]
          simp
  · simp only [crsGetV, hc, Except.ok.injEq, Prod.mk.injEq] at h
    obtain ⟨h1, h2, h3⟩ := h
    rw [← h2]
    simp
  · simp only [crsGetV, hc, Except.ok.injEq, Prod.mk.injEq] at h
    obtain ⟨h1, h2, h3⟩ := h
    rw [← h2]
    simp

/-- Auxiliary: a collection with no pointer of its own whose members name
more than one distinct grid-mapping variable makes the locator fail. -/
theorem gridMappingV_conflict (d : Dataset)
    (h1 : alGetStr d.encoding "grid_mapping" = none)
    (h2 : alGetStr d.attrs "grid_mapping" = none)
    (h3 : (dedupFirst (allGridMappingNames d)).length > 1) :
    gridMappingV (dsView d) = .error "Multiple grid mapping variables exist." := by
  simp [gridMappingV, dsView, pyOr, h1, h2, h3]

/-- Auxiliary: a `dim_map` access does not change the CRS cache. -/
theorem dimMapGet_crs (dims : List String) (st : GeoState) :
    (dimMapGet dims st).2.crs = st.crs := by
  simp only [dimMapGet]
  split_ifs with h
  · have hcrs : (inferOk dims st).crs = st.crs := by
      rw [inferOk_eq, inferred_crs]
    rcases hm : (inferOk dims st).dim_map with _ | _ | m <;> simp [hm, hcrs]
  · rcases hm : st.dim_map with _ | _ | m <;> simp [hm]

/-- Auxiliary: the `dims` view is unchanged by the state update a previous
`dims`/`dim_map` access performed. -/
theorem geoDims_stable (dims : List String) (st : GeoState) :
    (geoDims dims (dimMapGet dims st).2).1 = (geoDims dims st).1 := by
  simp [geoDims, dimMapGet_idem]

/-- C8: no-argument inference is idempotent, and an explicitly set X
binding survives both the call that sets it and a later no-argument
`dim_map`/`dims` access. -/
theorem c8_set_dims_idempotent_sticky :
    (∀ (dims : List String) (st : GeoState),
        inferOk dims (inferOk dims st) = inferOk dims st)
    ∧ (∀ (dims : List String) (st st1 : GeoState) (xv : String),
        setDimsDA dims st (some xv) none none none true = .ok st1 →
        st1.x_dim = some xv ∧ (dimMapGet dims st1).2.x_dim = some xv) := by
  constructor
  · intro dims st
    simp only [inferOk_eq]
    exact inferred_idem dims st
  · intro dims st st1 xv h
    by_cases hc : dims.contains xv
    · rw [setDimsDA_explicit_x dims st xv hc] at h
      injection h with h2
      subst h2
      refine ⟨setXExplicit_x dims st xv, ?_⟩
      rw [dimMapGet_x_no_infer]
      · exact setXExplicit_x dims st xv
      · rw [setXExplicit_dim_map]
        simp
    · exfalso
      have hm : ¬ xv ∈ dims := by simpa using hc
      simp [setDimsDA, stepX, bind, Except.bind, hm] at h

/-- C9: the code bug.  A member variable whose only dimension plays the
vertical role resolves to dims `("vertical",)` — a spatial role per the
spec — yet `_assign_grid_mapping` skips it, because it checks for the
literal name `"z"` in the role-renamed dims, where the vertical role
renders as `"vertical"`.  After `write_crs` on the dataset the spatial
`img` member is updated but the vertical-only `profile` member is left
completely untouched. -/
theorem c9_vertical_member_grid_mapping_bug :
    (geoDims profileVar.dimNames freshState).1 = ["vertical"]
      ∧ exceptOk c9Result = true
      ∧ alGet c9ResPair.2.ds.data_vars "profile" = some profileVar
      ∧ alGet c9ResPair.2.ds.data_vars "img"
          = some (assignGridMappingDA imgVar DEFAULT_GRID_MAPPING_VARIABLE_NAME)
      ∧ alGet c9ResPair.2.ds.encoding "grid_mapping"
          = some (AttrVal.str DEFAULT_GRID_MAPPING_VARIABLE_NAME) :=
  ⟨rfl, rfl, rfl, rfl, rfl⟩

/-- A DataArray whose `grid_mapping` attribute names a variable that is not
among its coordinate variables, with no other CRS source. -/
def gmMissingArray : DataArray :=
  { dims := [("y", 10), ("x", 20)],
    attrs := [("grid_mapping", AttrVal.str "a_grid_map_var")],
    coords := [], encoding := [] }

/-- C6: for an array with no discoverable CRS the first `crs` access
returns `None` and caches the absent state, and a second access returns
`None` with no further warnings; in particular a grid-mapping pointer
naming a missing coordinate variable yields exactly one warning in total
and no exception. -/
theorem c6_crs_negative_caching :
    (∀ (da : DataArray) (w : Nat),
        crsResolveV (daView da) = .ok (none, w) →
        crsGetV (daView da) freshState
            = .ok (none, { freshState with crs := CrsState.absent }, w)
          ∧ crsGetV (daView da) { freshState with crs := CrsState.absent }
            = .ok (none, { freshState with crs := CrsState.absent }, 0))
    ∧ (∀ (da : DataArray) (n : String),
        pyOr (alGetStr da.encoding "grid_mapping") (alGetStr da.attrs "grid_mapping")
            = some n →
        alGet da.coords n = none →
        alGet da.attrs "area" = none →
        crsResolveV (daView da) = .ok (none, 1)) := by
  constructor
  · intro da w h
    refine ⟨crsGetV_absent _ _ _ rfl h, ?_⟩
    simp [crsGetV]
  · intro da n h1 h2 h3
    simp [crsResolveV, getCrsFromGridMappingV, getGmVarV, gridMappingV, daView,
      h1, h2, getCrsFromPyresampleV, h3, bind, Except.bind]

/-- Witness for C6 at a concrete array. -/
theorem c6_crs_negative_caching_witness :
    crsResolveV (daView gmMissingArray) = .ok (none, 1)
      ∧ crsGetV (daView gmMissingArray) freshState
          = .ok (none, { freshState with crs := CrsState.absent }, 1)
      ∧ crsGetV (daView gmMissingArray) { freshState with crs := CrsState.absent }
          = .ok (none, { freshState with crs := CrsState.absent }, 0) := by
  have h2 := c6_crs_negative_caching.2 gmMissingArray "a_grid_map_var" rfl rfl rfl
  have h1 := c6_crs_negative_caching.1 gmMissingArray 1 h2
  exact ⟨h2, h1.1, h1.2⟩

/-- A one-member dataset with no CRS information anywhere. -/
def plainDs : Dataset :=
  { data_vars := [("Rad", imgVar)], coords := [], attrs := [], encoding := [] }

/-- A dataset whose three members point at three distinct grid-mapping
variables. -/
def threeGmDs : Dataset :=
  { data_vars :=
      [("Rad", { imgVar with attrs := [("grid_mapping", AttrVal.str "gm1")] }),
       ("Rad2", { imgVar with attrs := [("grid_mapping", AttrVal.str "gm2")] }),
       ("Rad3", { imgVar with attrs := [("grid_mapping", AttrVal.str "gm3")] })],
    coords := [], attrs := [], encoding := [] }

/-- C2 counterexample.  The claim says a dataset `crs` access with zero
member CRS values fails with a "no CRS information found" error and that a
multi-CRS conflict fails with a "dataset has more than one CRS" error
produced by collecting per-member CRS values.  On the code, the zero case
returns `None` successfully (no error at all), and the conflict surfaces
from the grid-mapping locator with the message "Multiple grid mapping
variables exist." — per-member CRS values are never collected. -/
theorem c2_dataset_crs_counterexample :
    crsGetV (dsView plainDs) freshState
        = .ok (none, { freshState with crs := CrsState.absent }, 0)
      ∧ crsGetV (dsView threeGmDs) freshState
        = .error "Multiple grid mapping variables exist." :=
  ⟨rfl, rfl⟩

/-- C2 amended: dataset-level `crs` resolves on the collection object
itself (via the shared grid-mapping/pyresample chain, with member pointers
aggregated by the locator): an error from the locator propagates; a pass
that finds nothing returns `None` and caches absence instead of failing;
and members naming more than one distinct grid-mapping variable make the
access fail with "Multiple grid mapping variables exist." — a conflict
that is never silently resolved. -/
theorem c2_dataset_crs_amended :
    (∀ (d : Dataset) (st : GeoState) (e : String),
        st.crs = CrsState.unresolved →
        gridMappingV (dsView d) = .error e →
        crsGetV (dsView d) st = .error e)
    ∧ (∀ (d : Dataset) (st : GeoState) (w : Nat),
        st.crs = CrsState.unresolved →
        crsResolveV (dsView d) = .ok (none, w) →
        crsGetV (dsView d) st = .ok (none, { st with crs := CrsState.absent }, w))
    ∧ (∀ (d : Dataset) (st : GeoState),
        st.crs = CrsState.unresolved →
        alGetStr d.encoding "grid_mapping" = none →
        alGetStr d.attrs "grid_mapping" = none →
        (dedupFirst (allGridMappingNames d)).length > 1 →
        crsGetV (dsView d) st = .error "Multiple grid mapping variables exist.") := by
  refine ⟨?_, ?_, ?_⟩
  · intro d st e h0 h1
    exact crsGetV_err _ _ _ h0 h1
  · intro d st w h0 h1
    exact crsGetV_absent _ _ _ h0 h1
  · intro d st h0 h1 h2 h3
    exact crsGetV_err _ _ _ h0 (gridMappingV_conflict d h1 h2 h3)

/-- Witness for C2 amended at concrete datasets. -/
theorem c2_dataset_crs_amended_witness :
    crsGetV (dsView threeGmDs) freshState
        = .error "Multiple grid mapping variables exist."
      ∧ crsGetV (dsView plainDs) freshState
        = .ok (none, { freshState with crs := CrsState.absent }, 0) :=
  ⟨c2_dataset_crs_amended.2.2 threeGmDs freshState rfl rfl rfl (by decide),
   c2_dataset_crs_amended.2.1 plainDs freshState 0 rfl rfl⟩

/-- Witness for C8 at concrete inputs: inference on dims `["a","b"]` and an
explicit `x="b"` binding that survives a later `dim_map` access. -/
theorem c8_set_dims_idempotent_sticky_witness :
    inferOk ["a", "b"] (inferOk ["a", "b"] freshState) = inferOk ["a", "b"] freshState
      ∧ ((setXExplicit ["a", "b"] freshState "b").x_dim = some "b"
          ∧ (dimMapGet ["a", "b"] (setXExplicit ["a", "b"] freshState "b")).2.x_dim
              = some "b") :=
  ⟨c8_set_dims_idempotent_sticky.1 ["a", "b"] freshState,
   c8_set_dims_idempotent_sticky.2 ["a", "b"] freshState
     (setXExplicit ["a", "b"] freshState "b") "b" rfl⟩

/-- C3 counterexample.  The claim says that with no grid-mapping pointer
recorded anywhere the `grid_mapping` property returns the fixed default
name `"spatial_ref"`.  On the code it returns `None` (the property's own
docstring says so); the default name is only applied downstream by
consumers such as `_get_crs_from_cf` and `write_crs`. -/
theorem c3_grid_mapping_default_counterexample :
    gridMappingV (daView imgVar) = .ok none
      ∧ (Except.ok (none : Option String) : Except String (Option String))
          ≠ .ok (some DEFAULT_GRID_MAPPING_VARIABLE_NAME) :=
  ⟨rfl, by simp [DEFAULT_GRID_MAPPING_VARIABLE_NAME]⟩

/-- C3 amended: the lookup order holds — a non-empty encoding pointer wins
over any attribute pointer; with no encoding pointer the attribute pointer
is returned; a collection with no own pointer aggregates the distinct
member pointers (one wins, several fail with "Multiple grid mapping
variables exist.", zero falls through); with no pointer anywhere the
property returns `None`, and the fixed default name `"spatial_ref"` is
applied only by the consumers (`write_crs` name selection and the CF
fallback lookup). -/
theorem c3_grid_mapping_amended :
    (∀ (v : GeoView) (n : String),
        alGetStr v.encoding "grid_mapping" = some n → n ≠ "" →
        gridMappingV v = .ok (some n))
    ∧ (∀ (v : GeoView) (m : String),
        alGetStr v.encoding "grid_mapping" = none →
        alGetStr v.attrs "grid_mapping" = some m →
        gridMappingV v = .ok (some m))
    ∧ (∀ (d : Dataset),
        alGetStr d.encoding "grid_mapping" = none →
        alGetStr d.attrs "grid_mapping" = none →
        ((dedupFirst (allGridMappingNames d)).length > 1 →
            gridMappingV (dsView d) = .error "Multiple grid mapping variables exist.")
          ∧ (∀ (gm1 : String), dedupFirst (allGridMappingNames d) = [gm1] →
              gridMappingV (dsView d) = .ok (some gm1))
          ∧ (dedupFirst (allGridMappingNames d) = [] →
              gridMappingV (dsView d) = .ok none))
    ∧ (∀ (da : DataArray),
        alGetStr da.encoding "grid_mapping" = none →
        alGetStr da.attrs "grid_mapping" = none →
        gridMappingV (daView da) = .ok none)
    ∧ resolveGmVarName none none = DEFAULT_GRID_MAPPING_VARIABLE_NAME
    ∧ (∀ (v : GeoView) (cv : CoordVar),
        gridMappingV v = .ok none →
        alGet v.coords DEFAULT_GRID_MAPPING_VARIABLE_NAME = some cv →
        getCrsFromCfV v = .ok (cfParse cv.attrs)) := by
  refine ⟨?_, ?_, ?_, ?_, rfl, ?_⟩
  · intro v n h1 h2
    simp [gridMappingV, pyOr, h1, h2]
  · intro v m h1 h2
    simp [gridMappingV, pyOr, h1, h2]
  · intro d h1 h2
    refine ⟨gridMappingV_conflict d h1 h2, ?_, ?_⟩
    · intro gm1 hone
      simp [gridMappingV, dsView, pyOr, h1, h2, hone]
    · intro hzero
      simp [gridMappingV, dsView, pyOr, h1, h2, hzero]
  · intro da h1 h2
    simp [gridMappingV, daView, pyOr, h1, h2]
  · intro v cv h1 h2
    simp [getCrsFromCfV, h1, h2, bind, Except.bind]

/-- A DataArray whose encoding and attributes both carry grid-mapping
pointers (the encoding one must win). -/
def twoPointerArray : DataArray :=
  { dims := [("y", 10), ("x", 20)],
    attrs := [("grid_mapping", AttrVal.str "from_attrs")],
    coords := [],
    encoding := [("grid_mapping", AttrVal.str "from_encoding")] }

/-- Witness for C3 amended at concrete objects. -/
theorem c3_grid_mapping_amended_witness :
    gridMappingV (daView twoPointerArray) = .ok (some "from_encoding")
      ∧ gridMappingV (dsView threeGmDs)
          = .error "Multiple grid mapping variables exist."
      ∧ gridMappingV (daView gmMissingArray) = .ok (some "a_grid_map_var") :=
  ⟨c3_grid_mapping_amended.1 (daView twoPointerArray) "from_encoding" rfl (by decide),
   (c3_grid_mapping_amended.2.2.1 threeGmDs rfl rfl).1 (by decide),
   c3_grid_mapping_amended.2.1 (daView gmMissingArray) "a_grid_map_var" rfl rfl⟩

/-- A DataArray whose grid-mapping coordinate variable carries a parseable
`spatial_ref` WKT together with an unparseable `crs_wkt` WKT. -/
def mixedWktArray : DataArray :=
  { dims := [("y", 10), ("x", 20)],
    attrs := [("grid_mapping", AttrVal.str "gm")],
    coords := [("gm",
      { dims := [],
        attrs := [("spatial_ref", AttrVal.wkt (Wkt.valid { id := 5 })),
                  ("crs_wkt", AttrVal.wkt (Wkt.invalid 0))] })],
    encoding := [] }

/-- C10 counterexample.  The claim says that whenever the located
grid-mapping variable carries a `spatial_ref` or `crs_wkt` attribute whose
value is not parseable WKT, a `crs` access raises the parser's error.  On
the code only the first present attribute in the order `spatial_ref`,
`crs_wkt` is parsed: here `crs_wkt` is unparseable, yet the access
succeeds with the CRS parsed from `spatial_ref` and raises nothing. -/
theorem c10_wkt_error_counterexample :
    alGet (exceptResult (gridMappingV (daView mixedWktArray)) none
        |>.elim [] (fun n => ((alGet mixedWktArray.coords n).elim [] CoordVar.attrs)))
      "crs_wkt" = some (AttrVal.wkt (Wkt.invalid 0))
      ∧ fromWktVal (AttrVal.wkt (Wkt.invalid 0)) = .error "CRSError: cannot parse WKT"
      ∧ crsGetV (daView mixedWktArray) freshState
        = .ok (some { id := 5 },
               { freshState with crs := CrsState.present { id := 5 } }, 0) :=
  ⟨rfl, rfl, rfl⟩

/-- C10 amended: the first present raw WKT attribute in the order
`spatial_ref` then `crs_wkt` is parsed, and a parse failure propagates the
parser's error out of the `crs` access (no CF fallback, no pyresample
source is consulted); the soft CF-parameter fallback runs only when both
raw WKT attributes are entirely absent, in which case the access never
raises. -/
theorem c10_wkt_error_amended :
    (∀ (da : DataArray) (n : String) (cv : CoordVar) (v : AttrVal) (e : String),
        gridMappingV (daView da) = .ok (some n) →
        alGet da.coords n = some cv →
        alGet cv.attrs "spatial_ref" = some v →
        fromWktVal v = .error e →
        crsGetV (daView da) freshState = .error e)
    ∧ (∀ (da : DataArray) (n : String) (cv : CoordVar) (v : AttrVal) (e : String),
        gridMappingV (daView da) = .ok (some n) →
        alGet da.coords n = some cv →
        alGet cv.attrs "spatial_ref" = none →
        alGet cv.attrs "crs_wkt" = some v →
        fromWktVal v = .error e →
        crsGetV (daView da) freshState = .error e)
    ∧ (∀ (da : DataArray) (n : String) (cv : CoordVar),
        gridMappingV (daView da) = .ok (some n) → n ≠ "" →
        alGet da.coords n = some cv →
        alGet cv.attrs "spatial_ref" = none →
        alGet cv.attrs "crs_wkt" = none →
        getCrsFromGridMappingV (daView da) = .ok (cfParse cv.attrs, 0)
          ∧ exceptOk (crsGetV (daView da) freshState) = true) := by
  refine ⟨?_, ?_, ?_⟩
  · intro da n cv v e h1 h2 h3 h4
    have h2v : alGet (daView da).coords n = some cv := h2
    simp [crsGetV, freshState, crsResolveV, getCrsFromGridMappingV, getGmVarV,
      h1, h2v, h3, h4, bind, Except.bind]
  · intro da n cv v e h1 h2 h3 h4 h5
    have h2v : alGet (daView da).coords n = some cv := h2
    simp [crsGetV, freshState, crsResolveV, getCrsFromGridMappingV, getGmVarV,
      h1, h2v, h3, h4, h5, bind, Except.bind]
  · intro da n cv h1 hne h2 h3 h4
    have h2v : alGet (daView da).coords n = some cv := h2
    have hgm : getCrsFromGridMappingV (daView da) = .ok (cfParse cv.attrs, 0) := by
      simp [getCrsFromGridMappingV, getGmVarV, getCrsFromCfV, h1, hne,
        h2v, h3, h4, bind, Except.bind]
    refine ⟨hgm, ?_⟩
    rcases hcf : cfParse cv.attrs with _ | c
    · rcases hpy : getCrsFromPyresampleV (daView da) with _ | c2 <;>
        simp [crsGetV, freshState, crsResolveV, hgm, hcf, hpy, bind, Except.bind,
          exceptOk]
    · simp [crsGetV, freshState, crsResolveV, hgm, hcf, bind, Except.bind, exceptOk]

/-- A DataArray whose grid-mapping coordinate variable only carries an
unparseable `spatial_ref`. -/
def badWktArray : DataArray :=
  { dims := [("y", 10), ("x", 20)],
    attrs := [("grid_mapping", AttrVal.str "gm")],
    coords := [("gm",
      { dims := [], attrs := [("spatial_ref", AttrVal.wkt (Wkt.invalid 3))] })],
    encoding := [] }

/-- A DataArray whose grid-mapping coordinate variable only carries CF
parameters. -/
def cfOnlyArray : DataArray :=
  { dims := [("y", 10), ("x", 20)],
    attrs := [("grid_mapping", AttrVal.str "gm")],
    coords := [("gm",
      { dims := [], attrs := [("cf_params", AttrVal.cf (some { id := 9 }))] })],
    encoding := [] }

/-- Witness for C10 amended at concrete arrays. -/
theorem c10_wkt_error_amended_witness :
    crsGetV (daView badWktArray) freshState = .error "CRSError: cannot parse WKT"
      ∧ (getCrsFromGridMappingV (daView cfOnlyArray) = .ok (some { id := 9 }, 0)
          ∧ exceptOk (crsGetV (daView cfOnlyArray) freshState) = true) :=
  ⟨c10_wkt_error_amended.1 badWktArray "gm"
      { dims := [], attrs := [("spatial_ref", AttrVal.wkt (Wkt.invalid 3))] }
      (AttrVal.wkt (Wkt.invalid 3)) "CRSError: cannot parse WKT" rfl rfl rfl rfl,
   c10_wkt_error_amended.2.2 cfOnlyArray "gm"
      { dims := [], attrs := [("cf_params", AttrVal.cf (some { id := 9 }))] }
      rfl (by decide) rfl rfl rfl⟩

/-- Auxiliary: the dataset `set_dims` member loop skips every member whose
dimensions do not contain the explicit X name (when no other explicit name
is supplied). -/
theorem foldlM_skip_x (l : List (String × DataArray)) (xv : String)
    (dm : List (String × String))
    (h : ∀ p ∈ l, p.2.dimNames.contains xv = false) :
    l.foldlM (setDimsDSBody (some xv) none none none) dm = Except.ok dm := by
  induction l generalizing dm with
  | nil => rfl
  | cons p rest ih =>
    have hp := h p (List.mem_cons_self p rest)
    have hrest : ∀ q ∈ rest, q.2.dimNames.contains xv = false :=
      fun q hq => h q (List.mem_cons_of_mem p hq)
    rw [List.foldlM_cons]
    have hm : ¬ xv ∈ p.2.dimNames := by simpa using hp
    have hbody : setDimsDSBody (some xv) none none none dm p = Except.ok dm := by
      simp [setDimsDSBody, filterArg, hm, pure, Except.pure]
    rw [hbody]
    simp only [bind, Except.bind]
    exact ih dm hrest

/-- Mirror of `set_dims(x=xv, inplace=False)` for a valid explicit X name:
the write goes to the copy, while `_set_2d_dims` consults the calling
accessor's (still unchanged) role fields. -/
def setXExplicitCopy (dims : List String) (st : GeoState) (xv : String) : GeoState :=
  let s0 := copyState st
  let s1 := { s0 with x_dim := some xv }
  let s2 := if st.y_dim = none ∧ dims.contains "y" then { s1 with y_dim := some "y" } else s1
  let s3 := step2d dims st.x_dim st.y_dim s2
  let s4 :=
    if st.vertical_dim = none then
      match findZ dims with
      | some zd => { s3 with vertical_dim := some zd }
      | none => s3
    else s3
  let s5 :=
    if st.time_dim = none then
      match findT dims with
      | some td => { s4 with time_dim := some td }
      | none => s4
    else s4
  { s5 with dim_map := .stale }

theorem setDimsDA_explicit_x_copy (dims : List String) (st : GeoState) (xv : String)
    (h : dims.contains xv = true) :
    setDimsDA dims st (some xv) none none none false
      = .ok (setXExplicitCopy dims st xv) := by
  simp only [setDimsDA, stepX, stepY, stepVertical, stepTime, bind, Except.bind, h,
    if_true, ite_true, Bool.false_eq_true, if_false, ite_false, setXExplicitCopy]

theorem setXExplicitCopy_2d (d0 d1 : String) (st : GeoState) (xv : String)
    (hx : st.x_dim = none) (hy : st.y_dim = none) :
    (setXExplicitCopy [d0, d1] st xv).x_dim = some d1
      ∧ (setXExplicitCopy [d0, d1] st xv).y_dim = some d0 := by
  simp only [setXExplicitCopy, step2d, hx, hy]
  split_ifs <;> repeat' split
  all_goals simp_all

theorem setXExplicitCopy_x_no_fire (dims : List String) (st : GeoState) (xv : String)
    (h : st.x_dim ≠ none ∨ st.y_dim ≠ none ∨ dims.length ≠ 2) :
    (setXExplicitCopy dims st xv).x_dim = some xv := by
  obtain ⟨c0, x0, y0, v0, t0, dm0⟩ := st
  rcases x0 with _ | xv0 <;> rcases y0 with _ | yv0 <;>
    rcases dims with _ | ⟨d0, _ | ⟨d1, _ | ⟨d2, r⟩⟩⟩ <;>
      simp only [setXExplicitCopy, step2d, copyState] <;>
        split_ifs <;> repeat' split
  all_goals simp_all

/-- C7 counterexample: two failures of the claim on the code.  First, a
collection silently ignores an explicitly supplied invalid name: the
Dataset-level `set_dims` filters each explicit name against each member's
dimensions and drops names that match no member, so with the bogus name
`"bogus"` the call succeeds instead of failing.  Second, at the array
level a valid explicit name is not bound unconditionally: with
`inplace=False` on a two-dimensional array whose roles are unbound,
`_set_2d_dims` consults the calling accessor's still-unbound fields, fires
the fallback, and overwrites the explicit `x="a"` binding with `x="b"`. -/
theorem c7_dataset_invalid_name_counterexample :
    (plainDs.dimNames.contains "bogus" = false
      ∧ setDimsDS { ds := plainDs, st := freshState } (some "bogus")
          none none none false
        = .ok { ds := plainDs, st := { freshState with dim_map := DimMapState.stale } })
    ∧ setDimsDA ["a", "b"] freshState (some "a") none none none false
        = .ok { crs := CrsState.unresolved, x_dim := some "b", y_dim := some "a",
                vertical_dim := none, time_dim := none,
                dim_map := DimMapState.stale } :=
  ⟨⟨rfl, rfl⟩, rfl⟩

/-- C7 amended: at the array level an explicit name not among the physical
dimensions fails immediately with the assertion error, in every inplace
mode; a valid explicit name is bound unconditionally when `inplace=True`;
when `inplace=False` the binding lands on the copy, but on a
two-dimensional object whose calling accessor has neither X nor Y bound,
the two-dimensional fallback (which reads the calling accessor's fields,
not the copy's) subsequently overwrites it, binding Y to the first and X
to the second dimension — in every other `inplace=False` case the explicit
binding survives; at the collection level explicit names are forwarded
only to members whose dimensions contain them, and a name matching no
member is silently dropped — the call succeeds and binds nothing. -/
theorem c7_explicit_dim_name_amended :
    (∀ (dims : List String) (st : GeoState) (xv : String) (ip : Bool),
        dims.contains xv = false →
        setDimsDA dims st (some xv) none none none ip
          = .error "AssertionError: x dimension name not in object dimensions")
    ∧ (∀ (dims : List String) (st st1 : GeoState) (xv : String),
        setDimsDA dims st (some xv) none none none true = .ok st1 →
        st1.x_dim = some xv)
    ∧ (∀ (d0 d1 : String) (st st1 : GeoState) (xv : String),
        st.x_dim = none → st.y_dim = none →
        setDimsDA [d0, d1] st (some xv) none none none false = .ok st1 →
        st1.x_dim = some d1 ∧ st1.y_dim = some d0)
    ∧ (∀ (dims : List String) (st st1 : GeoState) (xv : String),
        st.x_dim ≠ none ∨ st.y_dim ≠ none ∨ dims.length ≠ 2 →
        setDimsDA dims st (some xv) none none none false = .ok st1 →
        st1.x_dim = some xv)
    ∧ (∀ (d : Dataset) (xv : String),
        (∀ p ∈ d.data_vars, p.2.dimNames.contains xv = false) →
        setDimsDS { ds := d, st := freshState } (some xv) none none none false
          = .ok { ds := d, st := { freshState with dim_map := DimMapState.stale } }) := by
  refine ⟨?_, ?_, ?_, ?_, ?_⟩
  · intro dims st xv ip h
    have hm : ¬ xv ∈ dims := by simpa using h
    simp [setDimsDA, stepX, hm, bind, Except.bind]
  · intro dims st st1 xv h
    by_cases hc : dims.contains xv
    · rw [setDimsDA_explicit_x dims st xv hc] at h
      injection h with h2
      subst h2
      exact setXExplicit_x dims st xv
    · exfalso
      have hm : ¬ xv ∈ dims := by simpa using hc
      simp [setDimsDA, stepX, bind, Except.bind, hm] at h
  · intro d0 d1 st st1 xv hx hy h
    by_cases hc : [d0, d1].contains xv
    · rw [setDimsDA_explicit_x_copy [d0, d1] st xv hc] at h
      injection h with h2
      subst h2
      exact setXExplicitCopy_2d d0 d1 st xv hx hy
    · exfalso
      have hm : ¬ xv ∈ [d0, d1] := by simpa using hc
      simp [setDimsDA, stepX, bind, Except.bind, hm] at h
  · intro dims st st1 xv hcond h
    by_cases hc : dims.contains xv
    · rw [setDimsDA_explicit_x_copy dims st xv hc] at h
      injection h with h2
      subst h2
      exact setXExplicitCopy_x_no_fire dims st xv hcond
    · exfalso
      have hm : ¬ xv ∈ dims := by simpa using hc
      simp [setDimsDA, stepX, bind, Except.bind, hm] at h
  · intro d xv h
    simp only [setDimsDS, bind, Except.bind]
    rw [foldlM_skip_x d.data_vars xv _ h]
    rfl

/-- Witness for C7 amended at concrete inputs: the assertion failure, the
unconditional inplace binding, the non-inplace two-dimensional clobber,
a surviving non-inplace binding on a three-dimensional array, and the
silent collection-level drop. -/
theorem c7_explicit_dim_name_amended_witness :
    setDimsDA ["y", "x"] freshState (some "bogus") none none none true
        = .error "AssertionError: x dimension name not in object dimensions"
      ∧ (setXExplicit ["a", "b"] freshState "b").x_dim = some "b"
      ∧ ((setXExplicitCopy ["a", "b"] freshState "a").x_dim = some "b"
          ∧ (setXExplicitCopy ["a", "b"] freshState "a").y_dim = some "a")
      ∧ (setXExplicitCopy ["bands", "y", "x"] freshState "bands").x_dim = some "bands"
      ∧ setDimsDS { ds := plainDs, st := freshState } (some "not_a_dim")
          none none none false
        = .ok { ds := plainDs, st := { freshState with dim_map := DimMapState.stale } } :=
  ⟨c7_explicit_dim_name_amended.1 ["y", "x"] freshState "bogus" true rfl,
   c7_explicit_dim_name_amended.2.1 ["a", "b"] freshState
     (setXExplicit ["a", "b"] freshState "b") "b" rfl,
   c7_explicit_dim_name_amended.2.2.1 "a" "b" freshState
     (setXExplicitCopy ["a", "b"] freshState "a") "a" rfl rfl rfl,
   c7_explicit_dim_name_amended.2.2.2.1 ["bands", "y", "x"] freshState
     (setXExplicitCopy ["bands", "y", "x"] freshState "bands") "bands"
     (Or.inr (Or.inr (by decide))) rfl,
   c7_explicit_dim_name_amended.2.2.2.2 plainDs "not_a_dim" (by decide)⟩

/-- Auxiliary: the grid-mapping locator never fails on a DataArray; it
returns the encoding-else-attrs pointer. -/
theorem gridMappingV_daView (da : DataArray) :
    gridMappingV (daView da)
      = .ok (pyOr (alGetStr da.encoding "grid_mapping")
               (alGetStr da.attrs "grid_mapping")) := by
  simp only [gridMappingV, daView]
  rcases hp : pyOr (alGetStr da.encoding "grid_mapping")
      (alGetStr da.attrs "grid_mapping") with _ | n <;> simp [hp]

/-- The zero-dimensional coordinate variable written by `write_crs`. -/
def writtenCoordVar (c : CRS) : CoordVar := { dims := [], attrs := gmWriteAttrs c }

/-- The DataArray produced by `write_crs`: coordinate variable stored under
the chosen name, then the grid-mapping pointer migrated to encoding. -/
def writeResultDA (da : DataArray) (name : String) (c : CRS) : DataArray :=
  assignGridMappingDA { da with coords := alSet da.coords name (writtenCoordVar c) } name

/-- The Dataset produced by `write_crs`. -/
def writeResultDS (d : Dataset) (name : String) (c : CRS) : Dataset :=
  assignGridMappingDS { d with coords := alSet d.coords name (writtenCoordVar c) } name

/-- Auxiliary characterization of `write_crs` on a DataArray with an
explicit parseable CRS input. -/
theorem writeCrsDA_input (g : GeoDA) (c : CRS) (gmName : Option String)
    (inplace : Bool) (cur : Option String)
    (hgm : gridMappingV (daView g.da) = .ok cur) :
    writeCrsDA g (some (CrsInput.mk c)) gmName inplace
      = .ok
        (if inplace then
           { da := writeResultDA g.da (resolveGmVarName gmName cur) c,
             st := { g.st with crs := CrsState.present c } }
         else { da := g.da, st := g.st },
         { da := writeResultDA g.da (resolveGmVarName gmName cur) c,
           st := { (if inplace then g.st else copyState g.st)
                     with crs := CrsState.present c } }) := by
  cases inplace <;>
    simp [writeCrsDA, optionalCrsFromInput, fromUserInput, writeResultDA,
      writtenCoordVar, hgm, bind, Except.bind]

/-- Auxiliary characterization of `write_crs` on a Dataset with an explicit
parseable CRS input. -/
theorem writeCrsDS_input (g : GeoDS) (c : CRS) (gmName : Option String)
    (inplace : Bool) (cur : Option String)
    (hgm : gridMappingV (dsView g.ds) = .ok cur) :
    writeCrsDS g (some (CrsInput.mk c)) gmName inplace
      = .ok
        (if inplace then
           { ds := writeResultDS g.ds (resolveGmVarName gmName cur) c,
             st := { g.st with crs := CrsState.present c } }
         else { ds := g.ds, st := g.st },
         { ds := writeResultDS g.ds (resolveGmVarName gmName cur) c,
           st := { (if inplace then g.st else copyState g.st)
                     with crs := CrsState.present c } }) := by
  cases inplace <;>
    simp [writeCrsDS, optionalCrsFromInput, fromUserInput, writeResultDS,
      writtenCoordVar, hgm, bind, Except.bind]

/-- C1: for an object with no prior CRS, `write_crs` with a parseable CRS
followed by a `crs` read returns a structurally equal CRS; the coordinate
variable created under the chosen grid-mapping name is zero-dimensional
with `crs_wkt` and `spatial_ref` both the CRS's WKT serialization; and the
object (DataArray part) / the collection and every updated member variable
(Dataset part) carry no `grid_mapping` attribute but a `grid_mapping`
encoding entry equal to the written variable's name. -/
theorem c1_write_crs_round_trip :
    (∀ (g : GeoDA) (c : CRS) (gmName : Option String) (inplace : Bool)
        (cur : Option String) (w : Nat) (src res : GeoDA),
        g.st.crs = CrsState.unresolved →
        crsResolveV (daView g.da) = .ok (none, w) →
        gridMappingV (daView g.da) = .ok cur →
        writeCrsDA g (some (CrsInput.mk c)) gmName inplace = .ok (src, res) →
        (crsGetV (daView res.da) res.st).map (fun p => p.1) = .ok (some c)
          ∧ alGet res.da.coords (resolveGmVarName gmName cur)
              = some (writtenCoordVar c)
          ∧ (writtenCoordVar c).dims = []
          ∧ alGet (writtenCoordVar c).attrs "crs_wkt"
              = some (AttrVal.wkt (toWkt c))
          ∧ alGet (writtenCoordVar c).attrs "spatial_ref"
              = some (AttrVal.wkt (toWkt c))
          ∧ alGet res.da.attrs "grid_mapping" = none
          ∧ alGet res.da.encoding "grid_mapping"
              = some (AttrVal.str (resolveGmVarName gmName cur)))
    ∧ (∀ (g : GeoDS) (c : CRS) (gmName : Option String) (inplace : Bool)
        (cur : Option String) (w : Nat) (src res : GeoDS),
        g.st.crs = CrsState.unresolved →
        crsResolveV (dsView g.ds) = .ok (none, w) →
        gridMappingV (dsView g.ds) = .ok cur →
        writeCrsDS g (some (CrsInput.mk c)) gmName inplace = .ok (src, res) →
        (crsGetV (dsView res.ds) res.st).map (fun p => p.1) = .ok (some c)
          ∧ alGet res.ds.coords (resolveGmVarName gmName cur)
              = some (writtenCoordVar c)
          ∧ alGet res.ds.attrs "grid_mapping" = none
          ∧ alGet res.ds.encoding "grid_mapping"
              = some (AttrVal.str (resolveGmVarName gmName cur))
          ∧ res.ds.data_vars = g.ds.data_vars.map (fun p =>
              if daShouldAssign p.2
              then (p.1, assignGridMappingDA p.2 (resolveGmVarName gmName cur))
              else p)
          ∧ (∀ (da2 : DataArray) (n : String),
              alGet (assignGridMappingDA da2 n).attrs "grid_mapping" = none
                ∧ alGet (assignGridMappingDA da2 n).encoding "grid_mapping"
                  = some (AttrVal.str n))) := by
  constructor
  · intro g c gmName inplace cur w src res h0 hres hgm h
    rw [writeCrsDA_input g c gmName inplace cur hgm] at h
    injection h with h2
    have hres2 : res
        = { da := writeResultDA g.da (resolveGmVarName gmName cur) c,
            st := { (if inplace then g.st else copyState g.st)
                      with crs := CrsState.present c } } :=
      (congrArg Prod.snd h2).symm
    subst hres2
    refine ⟨?_, ?_, rfl, rfl, rfl, ?_, ?_⟩
    · simp [crsGetV, Except.map]
    · simp [writeResultDA, assignGridMappingDA]
    · simp [writeResultDA, assignGridMappingDA]
    · simp [writeResultDA, assignGridMappingDA]
  · intro g c gmName inplace cur w src res h0 hres hgm h
    rw [writeCrsDS_input g c gmName inplace cur hgm] at h
    injection h with h2
    have hres2 : res
        = { ds := writeResultDS g.ds (resolveGmVarName gmName cur) c,
            st := { (if inplace then g.st else copyState g.st)
                      with crs := CrsState.present c } } :=
      (congrArg Prod.snd h2).symm
    subst hres2
    refine ⟨?_, ?_, ?_, ?_, ?_, ?_⟩
    · simp [crsGetV, Except.map]
    · simp [writeResultDS, assignGridMappingDS]
    · simp [writeResultDS, assignGridMappingDS]
    · simp [writeResultDS, assignGridMappingDS]
    · simp [writeResultDS, assignGridMappingDS]
    · intro da2 n
      exact ⟨alGet_alPop_same da2.attrs "grid_mapping", alGet_alSet_same da2.encoding "grid_mapping" (AttrVal.str n)⟩

/-- Witness for C1 at a concrete array (CRS id 7, default name, copy). -/
theorem c1_write_crs_round_trip_witness :
    (crsGetV (daView (writeResultDA imgVar DEFAULT_GRID_MAPPING_VARIABLE_NAME { id := 7 }))
        { copyState freshState with crs := CrsState.present { id := 7 } }).map
        (fun p => p.1)
      = .ok (some { id := 7 })
    ∧ alGet (writeResultDA imgVar DEFAULT_GRID_MAPPING_VARIABLE_NAME { id := 7 }).attrs
        "grid_mapping" = none
    ∧ alGet (writeResultDA imgVar DEFAULT_GRID_MAPPING_VARIABLE_NAME { id := 7 }).encoding
        "grid_mapping" = some (AttrVal.str DEFAULT_GRID_MAPPING_VARIABLE_NAME) := by
  have h := c1_write_crs_round_trip.1 { da := imgVar, st := freshState } { id := 7 }
    none false none 0 { da := imgVar, st := freshState }
    { da := writeResultDA imgVar DEFAULT_GRID_MAPPING_VARIABLE_NAME { id := 7 },
      st := { copyState freshState with crs := CrsState.present { id := 7 } } }
    rfl rfl rfl rfl
  exact ⟨h.1, h.2.2.2.2.2.1, h.2.2.2.2.2.2⟩

/-- The source accessor state of the C5 counterexample: X explicitly bound
to `"b"` (as after `set_dims(x="b")`). -/
def c5SourceState : GeoState :=
  { crs := .unresolved, x_dim := some "b", y_dim := none,
    vertical_dim := none, time_dim := none, dim_map := .stale }

/-- C5 counterexample.  The claim says the object returned by `write_dims`
carries the source's cached resolver state (here: X bound to `"b"`) so the
copy does not re-run inference.  On the code, `write_dims` returns the
output of `rename`, a brand-new object whose accessor starts fresh: the
returned object's X binding is `none`, not the source's `some "b"`. -/
theorem c5_write_dims_state_counterexample :
    c5SourceState.x_dim = some "b"
      ∧ (writeDimsDA { da := abArray, st := c5SourceState }).2.st = freshState
      ∧ (writeDimsDA { da := abArray, st := c5SourceState }).2.st.x_dim = none :=
  ⟨rfl, rfl, rfl⟩

/-- C5 amended: `write_dims` and `write_crs(inplace=False)` never mutate
the source object, and the source's observed `dims` and `crs` are identical
before and after; `write_crs(inplace=False)` returns a copy carrying the
source's copied resolver state plus the new change; but the object
`write_dims` returns starts with a fresh resolver state (inference re-runs
on demand) rather than the source's cached state. -/
theorem c5_copy_isolation_amended :
    (∀ (g : GeoDA),
        (writeDimsDA g).1.da = g.da
          ∧ (writeDimsDA g).2.st = freshState
          ∧ (geoDims g.da.dimNames (writeDimsDA g).1.st).1
              = (geoDims g.da.dimNames g.st).1
          ∧ (writeDimsDA g).1.st.crs = g.st.crs)
    ∧ (∀ (g : GeoDA) (info : Option CrsInput) (gmName : Option String)
        (src res : GeoDA),
        writeCrsDA g info gmName false = .ok (src, res) →
        src.da = g.da
          ∧ src.st.x_dim = g.st.x_dim ∧ src.st.y_dim = g.st.y_dim
          ∧ src.st.vertical_dim = g.st.vertical_dim
          ∧ src.st.time_dim = g.st.time_dim
          ∧ (crsGetV (daView src.da) src.st).map (fun p => p.1)
              = (crsGetV (daView g.da) g.st).map (fun p => p.1))
    ∧ (∀ (g : GeoDA) (c : CRS) (gmName : Option String) (src res : GeoDA),
        writeCrsDA g (some (CrsInput.mk c)) gmName false = .ok (src, res) →
        res.st = { copyState g.st with crs := CrsState.present c }) := by
  refine ⟨?_, ?_, ?_⟩
  · intro g
    exact ⟨rfl, rfl, geoDims_stable g.da.dimNames g.st, dimMapGet_crs g.da.dimNames g.st⟩
  · intro g info gmName src res h
    rcases info with _ | i
    · simp only [writeCrsDA, optionalCrsFromInput, bind, Except.bind] at h
      rcases hcr : crsGetV (daView g.da) g.st with e | ⟨r, st1, w⟩
      · rw [hcr] at h
        simp at h
      · rw [hcr] at h
        rcases r with _ | c
        · simp at h
        · rw [gridMappingV_daView g.da] at h
          simp only [Except.ok.injEq, Prod.mk.injEq] at h
          obtain ⟨hsrc, hres⟩ := h
          have hsrc2 : src = { da := g.da, st := st1 } := hsrc.symm
          subst hsrc2
          obtain ⟨hx, hy, hv, ht, hdm⟩ := crsGetV_preserves _ _ _ _ _ hcr
          refine ⟨rfl, hx, hy, hv, ht, ?_⟩
          show (crsGetV (daView g.da) st1).map (fun p => p.1)
              = (Except.ok (some c, st1, w) :
                  Except String (Option CRS × GeoState × Nat)).map (fun p => p.1)
          rw [crsGetV_sticky _ _ _ _ _ hcr]
          simp [Except.map]
    · rcases i with c | _
      · rw [writeCrsDA_input g c gmName false _ (gridMappingV_daView g.da)] at h
        simp only [if_false, Except.ok.injEq, Prod.mk.injEq, Bool.false_eq_true] at h
        obtain ⟨hsrc, hres⟩ := h
        have hsrc2 : src = { da := g.da, st := g.st } := hsrc.symm
        subst hsrc2
        exact ⟨rfl, rfl, rfl, rfl, rfl, rfl⟩
      · simp [writeCrsDA, optionalCrsFromInput, fromUserInput, bind, Except.bind] at h
  · intro g c gmName src res h
    rw [writeCrsDA_input g c gmName false _ (gridMappingV_daView g.da)] at h
    simp only [if_false, Except.ok.injEq, Prod.mk.injEq, Bool.false_eq_true] at h
    obtain ⟨hsrc, hres⟩ := h
    rw [← hres]

/-- Witness for C5 amended at concrete objects. -/
theorem c5_copy_isolation_amended_witness :
    (writeDimsDA { da := abArray, st := freshState }).1.da = abArray
      ∧ (writeDimsDA { da := abArray, st := freshState }).2.st = freshState
      ∧ ({ da := writeResultDA abArray DEFAULT_GRID_MAPPING_VARIABLE_NAME { id := 3 },
           st := { copyState freshState with crs := CrsState.present { id := 3 } } } : GeoDA).st
        = { copyState freshState with crs := CrsState.present { id := 3 } } := by
  have h1 := c5_copy_isolation_amended.1 { da := abArray, st := freshState }
  have h3 := c5_copy_isolation_amended.2.2 { da := abArray, st := freshState } { id := 3 }
    none { da := abArray, st := freshState }
    { da := writeResultDA abArray DEFAULT_GRID_MAPPING_VARIABLE_NAME { id := 3 },
      st := { copyState freshState with crs := CrsState.present { id := 3 } } }
    rfl
  exact ⟨h1.1, h1.2.1, h3⟩

end Geoxarray
